import Mathlib

/-!
Verification of the ISA core of the `isa` crate (src/src/lib.rs): the
bit-field engine (`bits`, `set_bits`), the instruction descriptor table
generated by the `instruction_set!` invocation, and the decoder
`Instruction::get_instruction`, together with the accessors `opcode` and
`mask`.  Machine words are modelled as `Nat`; the host word is the 64-bit
`usize` of the source, and the places where the source's `usize`
arithmetic can overflow are modelled explicitly.
-/

set_option maxRecDepth 8000

namespace Isa

/-- Value of `size_of::<usize>() * 8` in the source on the 64-bit host:
the bit width of `usize`. -/
def USIZE_BITS : Nat := 64

/-- Start bound of a Rust range argument, as inspected by `r.start_bound()`
in the source.  The source declares the `Excluded` start case unreachable
(no standard Rust range produces it), so it is omitted here. -/
inductive StartBound where
  | inc (n : Nat)
  | unb
  deriving DecidableEq, Repr

/-- End bound of a Rust range argument, as inspected by `r.end_bound()`
in the source. -/
inductive EndBound where
  | inc (n : Nat)
  | exc (n : Nat)
  | unb
  deriving DecidableEq, Repr

/-- A range argument to `bits` / `set_bits`: a pair of bounds. -/
structure BitRange where
  lo : StartBound
  hi : EndBound
  deriving DecidableEq, Repr

/-- The `start` computed by both `bits` and `set_bits`:
`Included(n) => n`, `Unbounded => 0`. -/
def startVal : StartBound → Nat
  | .inc n => n
  | .unb => 0

/-- The `end` computed by both `bits` and `set_bits`:
`Included(n) => n`, `Excluded(n) => n - 1`, `Unbounded => size_of::<usize>() * 8`.
Subtraction is the truncated `Nat` subtraction (the `Excluded 0` case,
where the source's `usize` subtraction would underflow, is not used by
any theorem below). -/
def endVal : EndBound → Nat
  | .inc n => n
  | .exc n => n - 1
  | .unb => USIZE_BITS

/-- The function `bits` of src/src/lib.rs (lines 19-35):
`let mask = (1 << (end - start + 1)) - 1; (v >> start) & mask`.
Modelled over `Nat`; this agrees with the source's `usize` arithmetic
exactly whenever the shift amount `end - start + 1` is below 64 (no
overflow).  The overflowing case is modelled separately by `bitsWrap`. -/
def bits (v : Nat) (r : BitRange) : Nat :=
  let start := startVal r.lo
  let e := endVal r.hi
  let mask := (1 <<< (e - start + 1)) - 1
  (v >>> start) &&& mask

/-- The function `set_bits` of src/src/lib.rs (lines 49-68):
`let len = end - start + 1; let zeros = !(((1 << len) - 1) << start);
let val = v & zeros; (b << start) | val`.
The `usize` complement `!x` is modelled as `x ^^^ (2 ^ 64 - 1)`, which
agrees with the source for every `x < 2 ^ 64`; the whole function agrees
with the source's `usize` arithmetic exactly whenever `len < 64`,
`((1 << len) - 1) << start < 2 ^ 64` and `b << start < 2 ^ 64`. -/
def set_bits (v b : Nat) (r : BitRange) : Nat :=
  let start := startVal r.lo
  let e := endVal r.hi
  let len := e - start + 1
  let zeros := ((1 <<< len) - 1) <<< start ^^^ (2 ^ USIZE_BITS - 1)
  let val := v &&& zeros
  (b <<< start) ||| val

/-- A `usize` left shift under release-profile Rust semantics: the shift
amount is reduced modulo the 64-bit width and the result is truncated to
64 bits.  (Under the debug profile the same out-of-range shift panics.) -/
def shlWrap (x n : Nat) : Nat := (x <<< (n % USIZE_BITS)) % 2 ^ USIZE_BITS

/-- Evaluation of the source's `bits` with release-profile `usize`
semantics at the mask-building shift, for analysing the inputs on which
`(1 << (end - start + 1))` overflows the host word. -/
def bitsWrap (v : Nat) (r : BitRange) : Nat :=
  let start := startVal r.lo
  let e := endVal r.hi
  let mask := shlWrap 1 (e - start + 1) - 1
  ((v % 2 ^ USIZE_BITS) >>> (start % USIZE_BITS)) &&& mask

/-- The error type of the decoder, src/src/lib.rs lines 70-74: it carries
the offending raw word in its `code` field. -/
structure InvalidInstruction where
  code : Nat
  deriving DecidableEq, Repr

/-- The enumeration generated by the `instruction_set!` invocation of
src/src/lib.rs (lines 140-1373), one constructor per declared descriptor,
in declared order. -/
inductive Instruction where
  | LOAD | LOADN | LOADI | STORE | STOREN | STOREI | MOV | INPUT | OUTPUT
  | OUTCHAR | INCHAR | SOUND
  | ADD | ADDC | SUB | SUBC | MUL | DIV | INC | DEC | MOD
  | AND | OR | XOR | NOT
  | SHIFTL0 | SHIFTL1 | SHIFTR0 | SHIFTR1 | ROTL | ROTR
  | CMP
  | JMP | JEQ | JNE | JZ | JNZ | JC | JNC | JGR | JLE | JEG | JEL | JOV | JNO | JDZ | JN
  | CALL | CEQ | CNE | CZ | CNZ | CC | CNC | CGR | CLE | CEG | CEL | COV | CNO | CDZ | CN
  | RTS | RTI | PUSH | POP | NOP | HALT | CLEARC | SETC | BREAKP
  deriving DecidableEq, Repr

/-- The `$code` column of the `instruction_set!` invocation: the fixed-bit
pattern of each descriptor, which is also each enum variant's discriminant
(`$name = $code`). -/
def Instruction.code : Instruction → Nat
  | .LOAD    => 0b1100000000000000
  | .LOADN   => 0b1110000000000000
  | .LOADI   => 0b1111000000000000
  | .STORE   => 0b1100010000000000
  | .STOREN  => 0b1110010000000000
  | .STOREI  => 0b1111010000000000
  | .MOV     => 0b1100110000000000
  | .INPUT   => 0b1111100000000000
  | .OUTPUT  => 0b1111110000000000
  | .OUTCHAR => 0b1100100000000000
  | .INCHAR  => 0b1101010000000000
  | .SOUND   => 0b1101000000000000
  | .ADD     => 0b1000000000000000
  | .ADDC    => 0b1000000000000001
  | .SUB     => 0b1000010000000000
  | .SUBC    => 0b1000010000000001
  | .MUL     => 0b1000100000000000
  | .DIV     => 0b1000110000000000
  | .INC     => 0b1001000000000000
  | .DEC     => 0b1001000001000000
  | .MOD     => 0b1001010000000000
  | .AND     => 0b0100100000000000
  | .OR      => 0b0100110000000000
  | .XOR     => 0b0101000000000000
  | .NOT     => 0b0101010000000000
  | .SHIFTL0 => 0b0100000000000000
  | .SHIFTL1 => 0b0100000000010000
  | .SHIFTR0 => 0b0100000000100000
  | .SHIFTR1 => 0b0100000000110000
  | .ROTL    => 0b0100000001000000
  | .ROTR    => 0b0100000001100000
  | .CMP     => 0b0101100000000000
  | .JMP     => 0b0000100000000000
  | .JEQ     => 0b0000100001000000
  | .JNE     => 0b0000100010000000
  | .JZ      => 0b0000100011000000
  | .JNZ     => 0b0000100100000000
  | .JC      => 0b0000100101000000
  | .JNC     => 0b0000100110000000
  | .JGR     => 0b0000100111000000
  | .JLE     => 0b0000101000000000
  | .JEG     => 0b0000101001000000
  | .JEL     => 0b0000101010000000
  | .JOV     => 0b0000101011000000
  | .JNO     => 0b0000101100000000
  | .JDZ     => 0b0000101101000000
  | .JN      => 0b0000101110000000
  | .CALL    => 0b0000110000000000
  | .CEQ     => 0b0000110001000000
  | .CNE     => 0b0000110010000000
  | .CZ      => 0b0000110011000000
  | .CNZ     => 0b0000110100000000
  | .CC      => 0b0000110101000000
  | .CNC     => 0b0000110110000000
  | .CGR     => 0b0000110111000000
  | .CLE     => 0b0000111000000000
  | .CEG     => 0b0000111001000000
  | .CEL     => 0b0000111010000000
  | .COV     => 0b0000111011000000
  | .CNO     => 0b0000111100000000
  | .CDZ     => 0b0000111101000000
  | .CN      => 0b0000111110000000
  | .RTS     => 0b0001000000000000
  | .RTI     => 0b0001000000000001
  | .PUSH    => 0b0001010000000000
  | .POP     => 0b0001100000000000
  | .NOP     => 0b0000000000000000
  | .HALT    => 0b0011110000000000
  | .CLEARC  => 0b0010000000000000
  | .SETC    => 0b0010001000000000
  | .BREAKP  => 0b0011100000000000

/-- The `$mask` column of the `instruction_set!` invocation: the declared
significance mask of each descriptor, used by the decoder's comparison
`(v & $mask) == $code`. -/
def Instruction.maskColumn : Instruction → Nat
  | .LOAD    => 0b1111110000000000
  | .LOADN   => 0b1111110000000000
  | .LOADI   => 0b1111110000000000
  | .STORE   => 0b1111110000000000
  | .STOREN  => 0b1111110000000000
  | .STOREI  => 0b1111110000000000
  | .MOV     => 0b1111110000000000
  | .INPUT   => 0b1111110000000000
  | .OUTPUT  => 0b1111110000000000
  | .OUTCHAR => 0b1111110000000000
  | .INCHAR  => 0b1111110000000000
  | .SOUND   => 0b1111110000000000
  | .ADD     => 0b1111110000000001
  | .ADDC    => 0b1111110000000001
  | .SUB     => 0b1111110000000001
  | .SUBC    => 0b1111110000000001
  | .MUL     => 0b1111110000000001
  | .DIV     => 0b1111110000000001
  | .INC     => 0b1111110001000000
  | .DEC     => 0b1111110001000000
  | .MOD     => 0b1111110000000000
  | .AND     => 0b1111110000000000
  | .OR      => 0b1111110000000000
  | .XOR     => 0b1111110000000000
  | .NOT     => 0b1111110000000000
  | .SHIFTL0 => 0b1111110001110000
  | .SHIFTL1 => 0b1111110001110000
  | .SHIFTR0 => 0b1111110001110000
  | .SHIFTR1 => 0b1111110001110000
  | .ROTL    => 0b1111110001100000
  | .ROTR    => 0b1111110001100000
  | .CMP     => 0b1111110000000000
  | .JMP     => 0b1111111111000000
  | .JEQ     => 0b1111111111000000
  | .JNE     => 0b1111111111000000
  | .JZ      => 0b1111111111000000
  | .JNZ     => 0b1111111111000000
  | .JC      => 0b1111111111000000
  | .JNC     => 0b1111111111000000
  | .JGR     => 0b1111111111000000
  | .JLE     => 0b1111111111000000
  | .JEG     => 0b1111111111000000
  | .JEL     => 0b1111111111000000
  | .JOV     => 0b1111111111000000
  | .JNO     => 0b1111111111000000
  | .JDZ     => 0b1111111111000000
  | .JN      => 0b1111111111000000
  | .CALL    => 0b1111111111000000
  | .CEQ     => 0b1111111111000000
  | .CNE     => 0b1111111111000000
  | .CZ      => 0b1111111111000000
  | .CNZ     => 0b1111111111000000
  | .CC      => 0b1111111111000000
  | .CNC     => 0b1111111111000000
  | .CGR     => 0b1111111111000000
  | .CLE     => 0b1111111111000000
  | .CEG     => 0b1111111111000000
  | .CEL     => 0b1111111111000000
  | .COV     => 0b1111111111000000
  | .CNO     => 0b1111111111000000
  | .CDZ     => 0b1111111111000000
  | .CN      => 0b1111111111000000
  | .RTS     => 0b1111110000000001
  | .RTI     => 0b1111110000000001
  | .PUSH    => 0b1111110000000000
  | .POP     => 0b1111110000000000
  | .NOP     => 0b1111110000000000
  | .HALT    => 0b1111110000000000
  | .CLEARC  => 0b1111111000000000
  | .SETC    => 0b1111111000000000
  | .BREAKP  => 0b1111110000000000

/-- The accessor `Instruction::mask` of src/src/lib.rs (lines 110-115).
Its generated match arms substitute the `$code` literal of each variant,
not the `$mask` literal, so each arm below carries the value of the
`$code` column. -/
def Instruction.mask : Instruction → Nat
  | .LOAD    => 0b1100000000000000
  | .LOADN   => 0b1110000000000000
  | .LOADI   => 0b1111000000000000
  | .STORE   => 0b1100010000000000
  | .STOREN  => 0b1110010000000000
  | .STOREI  => 0b1111010000000000
  | .MOV     => 0b1100110000000000
  | .INPUT   => 0b1111100000000000
  | .OUTPUT  => 0b1111110000000000
  | .OUTCHAR => 0b1100100000000000
  | .INCHAR  => 0b1101010000000000
  | .SOUND   => 0b1101000000000000
  | .ADD     => 0b1000000000000000
  | .ADDC    => 0b1000000000000001
  | .SUB     => 0b1000010000000000
  | .SUBC    => 0b1000010000000001
  | .MUL     => 0b1000100000000000
  | .DIV     => 0b1000110000000000
  | .INC     => 0b1001000000000000
  | .DEC     => 0b1001000001000000
  | .MOD     => 0b1001010000000000
  | .AND     => 0b0100100000000000
  | .OR      => 0b0100110000000000
  | .XOR     => 0b0101000000000000
  | .NOT     => 0b0101010000000000
  | .SHIFTL0 => 0b0100000000000000
  | .SHIFTL1 => 0b0100000000010000
  | .SHIFTR0 => 0b0100000000100000
  | .SHIFTR1 => 0b0100000000110000
  | .ROTL    => 0b0100000001000000
  | .ROTR    => 0b0100000001100000
  | .CMP     => 0b0101100000000000
  | .JMP     => 0b0000100000000000
  | .JEQ     => 0b0000100001000000
  | .JNE     => 0b0000100010000000
  | .JZ      => 0b0000100011000000
  | .JNZ     => 0b0000100100000000
  | .JC      => 0b0000100101000000
  | .JNC     => 0b0000100110000000
  | .JGR     => 0b0000100111000000
  | .JLE     => 0b0000101000000000
  | .JEG     => 0b0000101001000000
  | .JEL     => 0b0000101010000000
  | .JOV     => 0b0000101011000000
  | .JNO     => 0b0000101100000000
  | .JDZ     => 0b0000101101000000
  | .JN      => 0b0000101110000000
  | .CALL    => 0b0000110000000000
  | .CEQ     => 0b0000110001000000
  | .CNE     => 0b0000110010000000
  | .CZ      => 0b0000110011000000
  | .CNZ     => 0b0000110100000000
  | .CC      => 0b0000110101000000
  | .CNC     => 0b0000110110000000
  | .CGR     => 0b0000110111000000
  | .CLE     => 0b0000111000000000
  | .CEG     => 0b0000111001000000
  | .CEL     => 0b0000111010000000
  | .COV     => 0b0000111011000000
  | .CNO     => 0b0000111100000000
  | .CDZ     => 0b0000111101000000
  | .CN      => 0b0000111110000000
  | .RTS     => 0b0001000000000000
  | .RTI     => 0b0001000000000001
  | .PUSH    => 0b0001010000000000
  | .POP     => 0b0001100000000000
  | .NOP     => 0b0000000000000000
  | .HALT    => 0b0011110000000000
  | .CLEARC  => 0b0010000000000000
  | .SETC    => 0b0010001000000000
  | .BREAKP  => 0b0011100000000000

/-- The accessor `Instruction::opcode` of src/src/lib.rs (lines 102-108):
`bits(code, 10..=15)` applied to the variant's `$code`. -/
def Instruction.opcode (i : Instruction) : Nat :=
  bits i.code (BitRange.mk (StartBound.inc 10) (EndBound.inc 15))

/-- All variants in the declared order of the `instruction_set!`
invocation.  `Instruction::get_instruction` tests them in this order. -/
def instructionList : List Instruction :=
  [.LOAD, .LOADN, .LOADI, .STORE, .STOREN, .STOREI, .MOV, .INPUT, .OUTPUT,
   .OUTCHAR, .INCHAR, .SOUND,
   .ADD, .ADDC, .SUB, .SUBC, .MUL, .DIV, .INC, .DEC, .MOD,
   .AND, .OR, .XOR, .NOT,
   .SHIFTL0, .SHIFTL1, .SHIFTR0, .SHIFTR1, .ROTL, .ROTR,
   .CMP,
   .JMP, .JEQ, .JNE, .JZ, .JNZ, .JC, .JNC, .JGR, .JLE, .JEG, .JEL, .JOV,
   .JNO, .JDZ, .JN,
   .CALL, .CEQ, .CNE, .CZ, .CNZ, .CC, .CNC, .CGR, .CLE, .CEG, .CEL, .COV,
   .CNO, .CDZ, .CN,
   .RTS, .RTI, .PUSH, .POP, .NOP, .HALT, .CLEARC, .SETC, .BREAKP]

/-- The masked comparison performed for each descriptor by
`Instruction::get_instruction`: `(v & $mask) == $code`. -/
def matchesRaw (v : Nat) (i : Instruction) : Bool :=
  v &&& i.maskColumn == i.code

/-- The decoder `Instruction::get_instruction` of src/src/lib.rs
(lines 128-134): the generated body tests `(v & $mask) == $code` for each
descriptor in declared order and returns the first that succeeds;
if none does, it returns `Err(InvalidInstruction { code: v })`. -/
def Instruction.get_instruction (v : Nat) : Except InvalidInstruction Instruction :=
  match instructionList.find? (matchesRaw v) with
  | some i => Except.ok i
  | none => Except.error { code := v }

/-- If position `i` of a list satisfies the predicate and every earlier
position fails it, then `find?` returns the element at position `i`. -/
theorem find?_eq_some_of_first {α : Type} (p : α → Bool) :
    ∀ (l : List α) (i : Nat) (x : α), l.get? i = some x → p x = true →
      (l.take i).all (fun y => ! p y) = true → l.find? p = some x := by
  intro l
  induction l with
  | nil => intro i x h _ _; simp at h
  | cons a tl ih =>
    intro i x hg hp hall
    cases i with
    | zero =>
      simp at hg
      subst hg
      simp [List.find?_cons_of_pos, hp]
    | succ j =>
      simp only [List.take_succ_cons, List.all_cons, Bool.and_eq_true, Bool.not_eq_true'] at hall
      rw [List.find?_cons_of_neg _ (by simp [hall.1])]
      exact ih j x (by simpa using hg) hp (by simpa using hall.2)

/-- How `set_bits` with an explicit inclusive range `s..=e`, `e` below the
host width, acts on each bit position: positions at `s` and above receive
the bits of `b` (shifted up by `s`), and a position of `v` survives only
when it lies outside `[s, e]` and below the host width. -/
theorem testBit_set_bits (v b s e i : Nat) (hse : s ≤ e) (he : e < 64) :
    Nat.testBit (set_bits v b (BitRange.mk (StartBound.inc s) (EndBound.inc e))) i =
      ((decide (s ≤ i) && Nat.testBit b (i - s)) ||
        (Nat.testBit v i && (decide (i < s) || (decide (e < i) && decide (i < 64))))) := by
  simp only [set_bits, startVal, endVal, USIZE_BITS, Nat.one_shiftLeft,
    Nat.testBit_or, Nat.testBit_and, Nat.testBit_xor, Nat.testBit_shiftLeft,
    Nat.testBit_two_pow_sub_one, ge_iff_le]
  have h4 : decide (i - s < e - s + 1) = decide (i ≤ e) := by
    by_cases h : i ≤ e <;> simp [h] <;> omega
  rw [h4]
  by_cases h2 : i ≤ e
  · have h3 : i < 64 := by omega
    have h6 : ¬ e < i := by omega
    by_cases h1 : s ≤ i
    · have h5 : ¬ i < s := by omega
      simp [h1, h2, h3, h5, h6]
    · have h5 : i < s := by omega
      simp [h1, h2, h3, h5, h6]
  · have h6 : e < i := by omega
    have h1 : s ≤ i := by omega
    have h5 : ¬ i < s := by omega
    by_cases h3 : i < 64 <;> simp [h1, h2, h3, h5, h6]

/-- C1: the claim says the `mask` accessor returns the declared
significance mask of each variant, with `mask(ADD) = 0b1111110000000001`.
It does not: the accessor's generated match arms substitute the `$code`
literal, so `mask(ADD)` is ADD's code `0b1000000000000000`, which differs
from ADD's declared mask (the `$mask` column entry used by the decoder). -/
theorem C1_mask_accessor_returns_code_not_mask :
    Instruction.mask Instruction.ADD = 0b1000000000000000 ∧
    Instruction.maskColumn Instruction.ADD = 0b1111110000000001 ∧
    Instruction.mask Instruction.ADD ≠ Instruction.maskColumn Instruction.ADD := by
  decide

/-- C2: the claim says extracting the range with unbounded start and
unbounded end returns the input unchanged.  It does not: the source
defaults the unbounded end to `size_of::<usize>() * 8 = 64`, so the mask
shift amount is `64 - 0 + 1 = 65`, which exceeds the 64-bit host word
(a panic under the debug profile); under the release profile's wrapping
shift the mask collapses to `1`, and extracting the full unbounded range
from `v = 2` returns `2 & 1 = 0`, not `2`. -/
theorem C2_extract_full_unbounded_range_not_identity :
    USIZE_BITS < endVal EndBound.unb - startVal StartBound.unb + 1 ∧
    bitsWrap 2 (BitRange.mk StartBound.unb EndBound.unb) = 0 ∧
    bitsWrap 2 (BitRange.mk StartBound.unb EndBound.unb) ≠ 2 := by
  decide

/-- C3: round-trip of the bit-field engine over an explicit inclusive
range `s..=e` inside the 16-bit word, for `b` already confined to the
range's width: extracting the range from `set_bits v b (s..=e)` gives
back `b`, and every bit position of `v` outside `[s, e]` is unchanged.
In this regime the `Nat` model coincides exactly with the source's
`usize` arithmetic. -/
theorem C3_replace_extract_round_trip (v b s e : Nat) (hse : s ≤ e) (he : e < 16)
    (hv : v < 2 ^ 16) (hb : b < 2 ^ (e - s + 1)) :
    bits (set_bits v b (BitRange.mk (StartBound.inc s) (EndBound.inc e)))
        (BitRange.mk (StartBound.inc s) (EndBound.inc e)) = b ∧
    ∀ i, i < s ∨ e < i →
      Nat.testBit (set_bits v b (BitRange.mk (StartBound.inc s) (EndBound.inc e))) i
        = Nat.testBit v i := by
  constructor
  · apply Nat.eq_of_testBit_eq
    intro j
    simp only [bits, startVal, endVal, Nat.one_shiftLeft, Nat.testBit_and,
      Nat.testBit_shiftRight, Nat.testBit_two_pow_sub_one]
    rw [testBit_set_bits v b s e (s + j) hse (by omega)]
    by_cases hj : j < e - s + 1
    · have h1 : s ≤ s + j := Nat.le_add_right s j
      have h2 : ¬ e < s + j := by omega
      have h3 : s + j - s = j := by omega
      have h4 : ¬ s + j < s := by omega
      simp [h1, h2, h3, h4, hj]
    · have hbj : Nat.testBit b j = false :=
        Nat.testBit_lt_two_pow (lt_of_lt_of_le hb (Nat.pow_le_pow_right (by omega) (by omega)))
      simp [hj, hbj]
  · intro i hi
    rw [testBit_set_bits v b s e i hse (by omega)]
    rcases hi with hi | hi
    · have h1 : ¬ s ≤ i := by omega
      simp [h1, hi]
    · have h1 : s ≤ i := by omega
      have h2 : ¬ i < s := by omega
      have hbi : Nat.testBit b (i - s) = false :=
        Nat.testBit_lt_two_pow (lt_of_lt_of_le hb (Nat.pow_le_pow_right (by omega) (by omega)))
      by_cases h3 : i < 64
      · simp [h1, h2, h3, hi, hbi]
      · have hvi : Nat.testBit v i = false :=
          Nat.testBit_lt_two_pow (lt_of_lt_of_le hv (Nat.pow_le_pow_right (by omega) (by omega)))
        simp [h1, h2, h3, hi, hbi, hvi]

/-- Witness for C3 at the source's own doc example: replacing bits `0b11`
of `0b101000` in range `1..=2` and extracting that range returns `0b11`. -/
theorem C3_replace_extract_round_trip_witness :
    bits (set_bits 40 3 (BitRange.mk (StartBound.inc 1) (EndBound.inc 2)))
        (BitRange.mk (StartBound.inc 1) (EndBound.inc 2)) = 3 :=
  (C3_replace_extract_round_trip 40 3 1 2 (by decide) (by decide) (by decide) (by decide)).1

/-- C4: the decoder honors declared priority: if the descriptor at
position `i` of the declared order matches the raw word under its own
mask and every earlier-declared descriptor fails its masked comparison,
then `get_instruction` returns the descriptor at position `i`.  In
particular, whenever two descriptors both match a raw word, the
earlier-declared one is returned. -/
theorem C4_decode_first_match_priority (v i : Nat) (I : Instruction)
    (hg : instructionList.get? i = some I)
    (hm : matchesRaw v I = true)
    (he : (instructionList.take i).all (fun J => ! matchesRaw v J) = true) :
    Instruction.get_instruction v = Except.ok I := by
  unfold Instruction.get_instruction
  rw [find?_eq_some_of_first (matchesRaw v) instructionList i I hg hm he]

/-- Witness for C4: the word `0b1000000000000001` is matched by the
descriptor at position 13 (ADDC) and by no earlier-declared one, so
decoding returns ADDC. -/
theorem C4_decode_first_match_priority_witness :
    Instruction.get_instruction 0b1000000000000001 = Except.ok Instruction.ADDC :=
  C4_decode_first_match_priority 0b1000000000000001 13 Instruction.ADDC
    (by decide) (by decide) (by decide)

/-- C5: decoding fails exactly when no descriptor's masked comparison
succeeds, and a failure always carries the offending raw word itself in
the error's `code` field. -/
theorem C5_decode_error_iff_no_match (v : Nat) :
    (Instruction.get_instruction v = Except.error { code := v } ↔
      ∀ I ∈ instructionList, matchesRaw v I = false) ∧
    (∀ e, Instruction.get_instruction v = Except.error e → e = { code := v }) := by
  unfold Instruction.get_instruction
  cases hfind : instructionList.find? (matchesRaw v) with
  | none =>
    refine ⟨⟨fun _ I hI => ?_, fun _ => rfl⟩, fun e he => (Except.error.inj he).symm⟩
    have := List.find?_eq_none.mp hfind I hI
    simpa using this
  | some J =>
    have h1 : matchesRaw v J = true := List.find?_some hfind
    have h2 : J ∈ instructionList := List.mem_of_find?_eq_some hfind
    refine ⟨⟨fun h => Except.noConfusion h, fun h => ?_⟩, fun e he => Except.noConfusion he⟩
    rw [h J h2] at h1
    exact Bool.noConfusion h1

/-- Witness for C5: the unassigned pattern `0b0010010000000000` matches
no descriptor, so decoding returns the error carrying that word. -/
theorem C5_decode_error_iff_no_match_witness :
    Instruction.get_instruction 0b0010010000000000 =
      Except.error { code := 0b0010010000000000 } :=
  (C5_decode_error_iff_no_match 0b0010010000000000).1.mpr (by decide)

/-- C6: every descriptor of the table satisfies the invariant
`code & mask == code`: each bit fixed by a descriptor's code is covered
by its declared mask. -/
theorem C6_table_code_and_mask_eq_code :
    ∀ I ∈ instructionList,
      Instruction.code I &&& Instruction.maskColumn I = Instruction.code I := by
  decide

/-- Witness for C6 at the first table entry, LOAD. -/
theorem C6_table_code_and_mask_eq_code_witness :
    Instruction.code Instruction.LOAD &&& Instruction.maskColumn Instruction.LOAD
      = Instruction.code Instruction.LOAD :=
  C6_table_code_and_mask_eq_code Instruction.LOAD (by decide)

/-- C7: for every variant, `opcode` yields bits 10 through 15 of the
variant's defining code — arithmetically, `code / 2 ^ 10 % 2 ^ 6`, a
value below `2 ^ 6` — regardless of the variant's own mask width; in
particular ADD and ADDC share it, as do SHIFTL0 and ROTR. -/
theorem C7_opcode_bits_10_15 :
    (∀ I : Instruction,
      Instruction.opcode I = Instruction.code I / 2 ^ 10 % 2 ^ 6 ∧
        Instruction.opcode I < 2 ^ 6) ∧
    Instruction.opcode Instruction.ADD = Instruction.opcode Instruction.ADDC ∧
    Instruction.opcode Instruction.SHIFTL0 = Instruction.opcode Instruction.ROTR := by
  refine ⟨fun I => ?_, by decide, by decide⟩
  cases I <;> exact ⟨by decide, by decide⟩

/-- Witness for C7 at LOAD: its opcode is bits 10 through 15 of its code
and lies below 64. -/
theorem C7_opcode_bits_10_15_witness :
    Instruction.opcode Instruction.LOAD
      = Instruction.code Instruction.LOAD / 2 ^ 10 % 2 ^ 6 ∧
    Instruction.opcode Instruction.LOAD < 2 ^ 6 :=
  C7_opcode_bits_10_15.1 Instruction.LOAD

/-- C8: `set_bits` does not confine its bits argument to the range's
width: with `v = 0`, range `0..=0` (width 1) and `b = 2 ≥ 2 ^ 1`, the
result differs from `v` at bit position 1, strictly above the range's
end — the overflow bit leaks into the adjacent higher-order position. -/
theorem C8_replace_leaks_overflow_bits :
    2 ^ (0 - 0 + 1) ≤ 2 ∧
    Nat.testBit (set_bits 0 2 (BitRange.mk (StartBound.inc 0) (EndBound.inc 0))) 1 = true ∧
    Nat.testBit 0 1 = false ∧ 0 < 1 := by
  decide

/-- C9: the all-zero word decodes to NOP, whose code is 0 and whose
declared mask covers the six opcode bits. -/
theorem C9_decode_zero_is_nop :
    Instruction.get_instruction 0 = Except.ok Instruction.NOP ∧
    Instruction.code Instruction.NOP = 0 ∧
    Instruction.maskColumn Instruction.NOP = 0b1111110000000000 :=
  ⟨rfl, rfl, rfl⟩

/-- C10: every variant's own declared code decodes back to that variant:
no earlier-declared descriptor's masked comparison shadows any later
descriptor's exact code. -/
theorem C10_canonical_code_decodes_to_self :
    ∀ I : Instruction, Instruction.get_instruction (Instruction.code I) = Except.ok I := by
  intro I
  cases I <;> rfl

/-- Witness for C10 at ADDC, whose code is shadowed by no earlier entry. -/
theorem C10_canonical_code_decodes_to_self_witness :
    Instruction.get_instruction (Instruction.code Instruction.ADDC)
      = Except.ok Instruction.ADDC :=
  C10_canonical_code_decodes_to_self Instruction.ADDC

end Isa
